import Mathlib

/-
Verification of the page/event-loop core of the cnc control panel program
(src/cnc_macrodial/code.py).  The Python classes LedState, KeyState,
KeySettings, OverallState and the DisplayPage hierarchy are embedded as
Lean structures and pure functions; observable side effects (page
activation and deactivation, keystroke emission, callback invocation,
handle_encoder_press call sites) are collected in an action trace.
Python code paths that would raise (attribute access on None, ValueError
from list.index, out-of-range list indexing) return none.
-/

namespace Cnc

/-- RGB triple as used for the indicator colors. -/
abbrev Color := Nat × Nat × Nat

/-- LedMode constants from the source (class LedMode). -/
inductive LedMode
  | OFF
  | ON
  | BLINK
  | PULSE
deriving DecidableEq, Repr

/-- KeyMode constants from the source (class KeyMode). -/
inductive KeyMode
  | NONE
  | MOMENT
  | LONG_MOMENT
  | PRESS
deriving DecidableEq, Repr

/-- Per-indicator animation state (class LedState).  The asyncio.Event
is modelled as the boolean flag event (true when set). -/
structure LedState where
  on_color : Color := (255, 255, 255)
  off_color : Color := (0, 0, 0)
  mode : LedMode := LedMode.OFF
  interval : Rat := (1 : Rat) / 10
  event : Bool := false
deriving DecidableEq, Repr

/-- LedState.reset from the source: sets the mode to OFF and nothing else. -/
def LedState.reset (s : LedState) : LedState :=
  { s with mode := LedMode.OFF }

/-- LedState.set_on_color: stores the color and sets the event. -/
def LedState.set_on_color (s : LedState) (c : Color) : LedState :=
  { s with on_color := c, event := true }

/-- LedState.set_off_color: stores the color and sets the event. -/
def LedState.set_off_color (s : LedState) (c : Color) : LedState :=
  { s with off_color := c, event := true }

/-- LedState.set_mode: stores the mode and sets the event. -/
def LedState.set_mode (s : LedState) (m : LedMode) : LedState :=
  { s with mode := m, event := true }

/-- Transient per-slot runtime state (class KeyState). -/
structure KeyState where
  pressed : Bool := false
  press_time : Option Int := none
  press_duration : Int := 0
  release_time : Option Int := none
deriving DecidableEq, Repr

/-- KeyState.reset restores the freshly constructed state. -/
def KeyState.reset (_ : KeyState) : KeyState := {}

/-- Identifier of one callback kind of a KeySettings entry. -/
inductive CbKind
  | press
  | release
  | hold
deriving DecidableEq, Repr

/-- The callbacks bound in main() are closures over the keyboard object
or over jog_dial_page.select_axis; they are embedded as values. -/
inductive Callback
  | send (keys : List Nat)
  | pressKeys (keys : List Nat)
  | releaseAll
  | selectAxis (axis : Nat)
deriving DecidableEq, Repr

/-- Static per-slot configuration (class KeySettings). -/
structure KeySettings where
  name : String := ""
  on_color : Color := (255, 255, 255)
  off_color : Color := (0, 0, 0)
  mode : KeyMode := KeyMode.NONE
  press_callback : Option Callback := none
  release_callback : Option Callback := none
  hold_callback : Option Callback := none
  long_moment_time : Nat := 2
deriving DecidableEq, Repr

/-- Pages are identified by a number; the class of each page object is
given by the Config. -/
abbrev PageId := Nat

/-- The closed set of page classes.  DisplayPage and SimpleButtonPage
share every event handler, so both are covered by display. -/
inductive PageKind
  | display
  | selection
  | sleep
  | jogDial
deriving DecidableEq, Repr

/-- Static data fixed at startup: the class of each page and the
key_settings table each page was configured with in main(). -/
structure Config where
  kind : PageId → PageKind
  settings : PageId → Fin 12 → KeySettings

/-- A key event as delivered by macropad.keys.events.get(). -/
structure KeyEvent where
  key_number : Fin 12
  pressed : Bool
deriving DecidableEq, Repr

/-- Observable side effects of the embedded code, in program order. -/
inductive Act
  | deactivate (p : PageId)
  | activate (p : PageId)
  | send (keys : List Nat)
  | pressKeys (keys : List Nat)
  | releaseAll
  | callbackInvoked (slot : Fin 12) (kind : CbKind)
  | encoderPressCall (pressed : Bool)
deriving DecidableEq, Repr

/-- The mutable process-wide context (class OverallState) together with
the per-instance attributes of the unique SelectionPage
(selected_page) and the unique JogDialPage (selected_axis).  The model
covers the running system, where current_page has been set by
add_page. -/
structure Sys where
  last_interaction : Int := 0
  page_stack : List PageId := []
  selection_page : Option PageId := none
  current_page : PageId := 0
  previous_page : Option PageId := none
  led_states : Fin 12 → LedState := fun _ => {}
  key_states : Fin 12 → KeyState := fun _ => {}
  sleep_page : Option PageId := none
  wake_to_page : Option PageId := none
  sleep_time : Int := 900
  selected_page : Option PageId := none
  selected_axis : Option Nat := none

/-- OverallState.reset: resets every LedState and KeyState. -/
def Sys.reset (s : Sys) : Sys :=
  { s with
    led_states := fun i => (s.led_states i).reset
    key_states := fun i => (s.key_states i).reset }

/-- In-place mutation of the LedState of one slot, as Python assignment
through state.led_states[i]. -/
def Sys.setLed (s : Sys) (i : Fin 12) (l : LedState) : Sys :=
  { s with led_states := Function.update s.led_states i l }

/-- Keycode constants used by the configured callbacks (HID usage ids). -/
def kcA : Nat := 4
def kcSHIFT : Nat := 225
def kcRIGHT_ARROW : Nat := 79
def kcLEFT_ARROW : Nat := 80
def kcDOWN_ARROW : Nat := 81
def kcUP_ARROW : Nat := 82
def kcPAGE_UP : Nat := 75
def kcPAGE_DOWN : Nat := 78

/-- JogDialPage.select_axis: toggles the exclusive axis selection and
rewrites the off colors of the three axis slots 9, 10, 11. -/
def JogDialPage.select_axis (s : Sys) (axis : Nat) : Sys :=
  let newSel : Option Nat := if s.selected_axis = some axis then none else some axis
  let hl : Color := (255, 0, 20)
  let neutral : Color := (0, 32, 32)
  { s with
    selected_axis := newSel
    led_states := fun i =>
      if i = (9 : Fin 12) then
        (s.led_states i).set_off_color (if newSel = some 0 then hl else neutral)
      else if i = (10 : Fin 12) then
        (s.led_states i).set_off_color (if newSel = some 1 then hl else neutral)
      else if i = (11 : Fin 12) then
        (s.led_states i).set_off_color (if newSel = some 2 then hl else neutral)
      else s.led_states i }

/-- Body of one iteration of the loop in JogDialPage.handle_jog_event:
the keystrokes sent by the if/elif chain for the current sign of
change_rel and the current selected_axis. -/
def JogDialPage.jogIter (change_rel : Int) (sel : Option Nat) : List Act :=
  if change_rel < 0 ∧ sel = some 0 then [Act.send [kcSHIFT, kcLEFT_ARROW]]
  else if change_rel > 0 ∧ sel = some 0 then [Act.send [kcSHIFT, kcRIGHT_ARROW]]
  else if change_rel < 0 ∧ sel = some 1 then [Act.send [kcSHIFT, kcDOWN_ARROW]]
  else if change_rel > 0 ∧ sel = some 1 then [Act.send [kcSHIFT, kcUP_ARROW]]
  else if change_rel < 0 ∧ sel = some 2 then [Act.send [kcSHIFT, kcPAGE_DOWN]]
  else if change_rel > 0 ∧ sel = some 2 then [Act.send [kcSHIFT, kcPAGE_UP]]
  else []

/-- JogDialPage.handle_jog_event: runs the iteration body
abs(change_rel) times; the state is not modified. -/
def JogDialPage.handle_jog_event (s : Sys) (change_rel : Int) : Sys × List Act :=
  (s, (List.replicate change_rel.natAbs (JogDialPage.jogIter change_rel s.selected_axis)).flatten)

/-- Effect of calling one bound callback closure. -/
def runCallback (s : Sys) (cb : Callback) : Sys × List Act :=
  match cb with
  | Callback.send ks => (s, [Act.send ks])
  | Callback.pressKeys ks => (s, [Act.pressKeys ks])
  | Callback.releaseAll => (s, [Act.releaseAll])
  | Callback.selectAxis a => (JogDialPage.select_axis s a, [])

/-- DisplayPage.handle_key_event, shared by every page class: the press
branch runs only for trigger modes other than NONE, the release branch
runs for every release. -/
def DisplayPage.handle_key_event (cfg : Config) (s : Sys) (ev : KeyEvent) : Sys × List Act :=
  let ks := cfg.settings s.current_page ev.key_number
  let r1 : Sys × List Act :=
    if ev.pressed ∧ ks.mode ≠ KeyMode.NONE then
      let sOn := s.setLed ev.key_number ((s.led_states ev.key_number).set_mode LedMode.ON)
      match ks.press_callback with
      | some cb =>
        let r := runCallback sOn cb
        (r.1, Act.callbackInvoked ev.key_number CbKind.press :: r.2)
      | none => (sOn, [])
    else (s, [])
  if ev.pressed then r1
  else
    let r2 : Sys × List Act :=
      match ks.release_callback with
      | some cb =>
        let r := runCallback r1.1 cb
        (r.1, Act.callbackInvoked ev.key_number CbKind.release :: r.2)
      | none => (r1.1, [])
    (r2.1.setLed ev.key_number ((r2.1.led_states ev.key_number).set_mode LedMode.OFF),
     r1.2 ++ r2.2)

/-- DisplayPage.activate without the display rendering: every LedState
receives the on color, the off color and mode OFF of the page settings. -/
def DisplayPage.activate (cfg : Config) (p : PageId) (s : Sys) : Sys :=
  { s with led_states := fun i =>
      (((s.led_states i).set_on_color (cfg.settings p i).on_color).set_off_color
        (cfg.settings p i).off_color).set_mode LedMode.OFF }

/-- Page activation dispatched on the class of the page.
SelectionPage.activate additionally captures previous_page as
selected_page and renders its title, which raises when previous_page is
None; JogDialPage.activate additionally clears selected_axis. -/
def Page.activate (cfg : Config) (p : PageId) (s : Sys) : Option Sys :=
  match cfg.kind p with
  | PageKind.selection =>
    let s1 := DisplayPage.activate cfg p s
    match s1.previous_page with
    | none => none
    | some q => some { s1 with selected_page := some q }
  | PageKind.jogDial => some { DisplayPage.activate cfg p s with selected_axis := none }
  | _ => some (DisplayPage.activate cfg p s)

/-- DisplayPage.handle_encoder_press: on press, when a selection page is
registered, switch to it remembering the previous page. -/
def DisplayPage.handle_encoder_press (cfg : Config) (s : Sys) (pressed : Bool) :
    Option (Sys × List Act) :=
  if pressed ∧ s.selection_page.isSome then
    match s.selection_page with
    | none => none
    | some sel =>
      let old := s.current_page
      match Page.activate cfg sel { s with previous_page := some old, current_page := sel } with
      | none => none
      | some s2 => some (s2, [Act.deactivate old, Act.activate sel])
  else some (s, [])

/-- SelectionPage.handle_encoder_press: commits the tentative pick. -/
def SelectionPage.handle_encoder_press (cfg : Config) (s : Sys) (pressed : Bool) :
    Option (Sys × List Act) :=
  if pressed ∧ s.selection_page.isSome then
    match s.selected_page with
    | none => none
    | some p =>
      let old := s.current_page
      match Page.activate cfg p { s with current_page := p } with
      | none => none
      | some s2 => some (s2, [Act.deactivate old, Act.activate p])
  else some (s, [])

/-- SelectionPage.handle_encoder_event: one wrapping step through
page_stack, driven only by the sign of change_rel.  list.index raises
when the tentative pick is missing from page_stack. -/
def SelectionPage.handle_encoder_event (s : Sys) (change_rel : Int) :
    Option (Sys × List Act) :=
  match s.selected_page with
  | none => none
  | some sp =>
    if sp ∈ s.page_stack then
      let i0 : Int := (s.page_stack.indexOf sp : Nat)
      let i1 : Int := if change_rel < 0 then
          (if i0 - 1 < 0 then (s.page_stack.length : Int) - 1 else i0 - 1)
        else i0
      let i2 : Int := if change_rel > 0 then
          (if i1 + 1 ≥ (s.page_stack.length : Int) then 0 else i1 + 1)
        else i1
      match s.page_stack.get? i2.toNat with
      | none => none
      | some q => some ({ s with selected_page := some q }, [])
    else none

/-- SleepPage.wake: restores wake_to_page as the current page. -/
def SleepPage.wake (cfg : Config) (s : Sys) : Option (Sys × List Act) :=
  match s.wake_to_page with
  | none => none
  | some p =>
    let old := s.current_page
    match Page.activate cfg p { s with current_page := p } with
    | none => none
    | some s2 => some (s2, [Act.deactivate old, Act.activate p])

/-- SleepPage.handle_encoder_press: wakes on press only. -/
def SleepPage.handle_encoder_press (cfg : Config) (s : Sys) (pressed : Bool) :
    Option (Sys × List Act) :=
  if pressed then SleepPage.wake cfg s else some (s, [])

/-- SleepPage.handle_encoder_event: wakes on any rotation. -/
def SleepPage.handle_encoder_event (cfg : Config) (s : Sys) (_change_rel : Int) :
    Option (Sys × List Act) :=
  SleepPage.wake cfg s

/-- handle_encoder_press of the current page, dispatched on its class. -/
def Page.handle_encoder_press (cfg : Config) (s : Sys) (pressed : Bool) :
    Option (Sys × List Act) :=
  match cfg.kind s.current_page with
  | PageKind.selection => SelectionPage.handle_encoder_press cfg s pressed
  | PageKind.sleep => SleepPage.handle_encoder_press cfg s pressed
  | _ => DisplayPage.handle_encoder_press cfg s pressed

/-- handle_encoder_event of the current page, dispatched on its class. -/
def Page.handle_encoder_event (cfg : Config) (s : Sys) (d : Int) :
    Option (Sys × List Act) :=
  match cfg.kind s.current_page with
  | PageKind.selection => SelectionPage.handle_encoder_event s d
  | PageKind.sleep => SleepPage.handle_encoder_event cfg s d
  | _ => some (s, [])

/-- handle_jog_event of the current page, dispatched on its class. -/
def Page.handle_jog_event (cfg : Config) (s : Sys) (d : Int) : Sys × List Act :=
  match cfg.kind s.current_page with
  | PageKind.jogDial => JogDialPage.handle_jog_event s d
  | _ => (s, [])

/-- handle_key_event of the current page; no page class overrides it. -/
def Page.handle_key_event (cfg : Config) (s : Sys) (ev : KeyEvent) : Sys × List Act :=
  DisplayPage.handle_key_event cfg s ev

/-- Loop-local variables of event_loop_task. -/
structure LoopState where
  sys : Sys
  last_jog_pos : Int := 0
  last_encoder_pos : Int := 0
  encoder_held : Bool := false

/-- Values polled from the hardware drivers at the top of one iteration
of event_loop_task: monotonic time, the debounced encoder switch after
update(), at most one pending key event, and the two absolute rotation
counts. -/
structure TickInput where
  current_time : Int
  encoder_pressed : Bool
  key_event : Option KeyEvent := none
  jog_pos : Int := 0
  encoder_pos : Int := 0

/-- Encoder-press section of the loop body.  A call with True fires only
on the rising edge against encoder_held and refreshes last_interaction;
a call with False is made on every iteration in which the switch is not
pressed. -/
def tickEncPress (cfg : Config) (ls : LoopState) (inp : TickInput) :
    Option (Sys × Bool × List Act) :=
  if inp.encoder_pressed then
    if ls.encoder_held then some (ls.sys, true, [])
    else
      match Page.handle_encoder_press cfg ls.sys true with
      | none => none
      | some (s, a) =>
        some ({ s with last_interaction := inp.current_time }, true,
          Act.encoderPressCall true :: a)
  else
    match Page.handle_encoder_press cfg ls.sys false with
    | none => none
    | some (s, a) => some (s, false, Act.encoderPressCall false :: a)

/-- Key-event section of the loop body. -/
def tickKey (cfg : Config) (s : Sys) (inp : TickInput) : Sys × List Act :=
  match inp.key_event with
  | none => (s, [])
  | some ev =>
    let r := Page.handle_key_event cfg s ev
    ({ r.1 with last_interaction := inp.current_time }, r.2)

/-- Jog-dial section of the loop body: diffs the absolute position. -/
def tickJog (cfg : Config) (s : Sys) (lastJog : Int) (inp : TickInput) :
    Sys × Int × List Act :=
  if inp.jog_pos ≠ lastJog then
    let r := Page.handle_jog_event cfg s (inp.jog_pos - lastJog)
    ({ r.1 with last_interaction := inp.current_time }, inp.jog_pos, r.2)
  else (s, lastJog, [])

/-- Encoder-rotation section of the loop body. -/
def tickEncoder (cfg : Config) (s : Sys) (lastEnc : Int) (inp : TickInput) :
    Option (Sys × Int × List Act) :=
  if inp.encoder_pos ≠ lastEnc then
    match Page.handle_encoder_event cfg s (inp.encoder_pos - lastEnc) with
    | none => none
    | some (s2, a) =>
      some ({ s2 with last_interaction := inp.current_time }, inp.encoder_pos, a)
  else some (s, lastEnc, [])

/-- The four statements of lines 438-442 of the source: deactivate the
current page, remember it in wake_to_page, make the sleep page current
and activate it. -/
def sleepTransition (cfg : Config) (s : Sys) : Option (Sys × List Act) :=
  match s.sleep_page with
  | none => none
  | some sp =>
    let old := s.current_page
    match Page.activate cfg sp { s with wake_to_page := some old, current_page := sp } with
    | none => none
    | some s2 => some (s2, [Act.deactivate old, Act.activate sp])

/-- Idle check at the end of the loop body, with the strict comparison
of the source. -/
def tickSleep (cfg : Config) (s : Sys) (now : Int) : Option (Sys × List Act) :=
  if some s.current_page ≠ s.sleep_page ∧
      now - s.last_interaction > s.sleep_time * 1000000000 then
    sleepTransition cfg s
  else some (s, [])

/-- One full iteration of the while loop of event_loop_task, in source
order: encoder press, key event, jog dial, encoder rotation, idle
check. -/
def tick (cfg : Config) (ls : LoopState) (inp : TickInput) :
    Option (LoopState × List Act) :=
  match tickEncPress cfg ls inp with
  | none => none
  | some (s0, held, a0) =>
    let r1 := tickKey cfg s0 inp
    let r2 := tickJog cfg r1.1 ls.last_jog_pos inp
    match tickEncoder cfg r2.1 ls.last_encoder_pos inp with
    | none => none
    | some (s3, lastEnc, a3) =>
      match tickSleep cfg s3 inp.current_time with
      | none => none
      | some (s4, a4) =>
        some ({ sys := s4, last_jog_pos := r2.2.1, last_encoder_pos := lastEnc,
                encoder_held := held },
          a0 ++ r1.2 ++ r2.2.2 ++ a3 ++ a4)

/-- Summary of the keystroke emitted per unit of jog rotation for a
given axis and rotation direction (neg is true for negative deltas). -/
def jogKey (axis : Nat) (neg : Bool) : Act :=
  if neg then
    if axis = 0 then Act.send [kcSHIFT, kcLEFT_ARROW]
    else if axis = 1 then Act.send [kcSHIFT, kcDOWN_ARROW]
    else Act.send [kcSHIFT, kcPAGE_DOWN]
  else
    if axis = 0 then Act.send [kcSHIFT, kcRIGHT_ARROW]
    else if axis = 1 then Act.send [kcSHIFT, kcUP_ARROW]
    else Act.send [kcSHIFT, kcPAGE_UP]

/-- A sequence of JogDialPage.select_axis calls, applied left to right. -/
def selectAxisSeq (s : Sys) (l : List Nat) : Sys :=
  l.foldl JogDialPage.select_axis s

/-- Concrete configuration used to evaluate the model: page 0 is the
sleep page, page 1 the selection page, page 4 the jog-dial page, all
other ids ordinary pages.  Page 2 carries a NONE slot with a bound
release callback and page 4 carries the three axis slots of main(). -/
def testConfig : Config where
  kind := fun p =>
    if p = 0 then PageKind.sleep
    else if p = 1 then PageKind.selection
    else if p = 4 then PageKind.jogDial
    else PageKind.display
  settings := fun p i =>
    if p = 2 ∧ i = (2 : Fin 12) then
      { mode := KeyMode.NONE, release_callback := some (Callback.send [kcA]) }
    else if p = 4 ∧ i = (9 : Fin 12) then
      { name := "X", on_color := (255, 0, 20), off_color := (0, 32, 32),
        mode := KeyMode.MOMENT, press_callback := some (Callback.selectAxis 0) }
    else if p = 4 ∧ i = (10 : Fin 12) then
      { name := "Y", on_color := (255, 0, 20), off_color := (0, 32, 32),
        mode := KeyMode.MOMENT, press_callback := some (Callback.selectAxis 1) }
    else if p = 4 ∧ i = (11 : Fin 12) then
      { name := "Z", on_color := (255, 0, 20), off_color := (0, 32, 32),
        mode := KeyMode.MOMENT, press_callback := some (Callback.selectAxis 2) }
    else {}

/-- Result of Page.activate for every page class other than the
selection page (for which activation can raise); used to phrase
activation equations in the proofs below. -/
def activateNS (cfg : Config) (p : PageId) (s : Sys) : Sys :=
  if cfg.kind p = PageKind.jogDial then
    { DisplayPage.activate cfg p s with selected_axis := none }
  else DisplayPage.activate cfg p s

/-- Loop state on ordinary page 2, idle since time 0. -/
def c1loop : LoopState :=
  { sys := { current_page := 2, sleep_page := some 0, selection_page := some 1 } }

/-- Quiet tick at exactly sleep_time seconds of idleness
(900 s in nanoseconds). -/
def c1inp : TickInput := { current_time := 900000000000, encoder_pressed := false }

/-- Quiet tick one nanosecond past the sleep_time threshold. -/
def c1inp2 : TickInput := { current_time := 900000000001, encoder_pressed := false }

/-- Loop state on ordinary page 2 with a recent interaction. -/
def c5loop : LoopState :=
  { sys := { current_page := 2, sleep_page := some 0, selection_page := some 1,
             last_interaction := 1000 } }

/-- Quiet tick with the encoder switch unpressed, matching the held
flag of c5loop. -/
def c5inp : TickInput := { current_time := 1000, encoder_pressed := false }

/-- State on the sleep page with a page to wake back to. -/
def c2sys : Sys :=
  { current_page := 0, sleep_page := some 0, selection_page := some 1,
    wake_to_page := some 2 }

/-- State on an ordinary page about to be sent to sleep. -/
def c2tsys : Sys :=
  { current_page := 2, sleep_page := some 0, selection_page := some 1 }

/-- Selection page state: five registered pages, tentative pick at the
last index. -/
def c3sys : Sys :=
  { current_page := 1, page_stack := [2, 3, 4, 5, 6], selection_page := some 1,
    selected_page := some 6 }

/-- Selection page state with the tentative pick on the jog-dial page. -/
def c4sys : Sys :=
  { current_page := 1, page_stack := [2, 3, 4, 5, 6], selection_page := some 1,
    selected_page := some 4 }

/-- Ordinary page 2 current, all LedStates fresh. -/
def c6sys : Sys := { current_page := 2 }

/-- Release event for slot 2 (a NONE slot of page 2 with a bound release
callback in testConfig). -/
def c6ev : KeyEvent := { key_number := 2, pressed := false }

/-- LedState with mode ON and the event flag clear, as left behind by a
press on a bound slot once the animator has consumed the signal. -/
def c7led : LedState := { mode := LedMode.ON }

/-- Jog-dial page state with axis Y selected. -/
def c8sys : Sys := { current_page := 4, selected_axis := some 1 }

/-- Jog-dial page state directly after activation. -/
def c9sys : Sys := { current_page := 4 }

/-- Jog-dial page state with axis Z still selected from an earlier
visit, as seen by a re-activation. -/
def c10sys : Sys := { current_page := 4, selected_axis := some 2 }

section Lemmas

lemma flatten_replicate_nil (n : Nat) :
    (List.replicate n ([] : List Act)).flatten = [] := by
  induction n with
  | zero => rfl
  | succ k ih => simp [List.replicate_succ, ih]

lemma flatten_replicate_one (n : Nat) (x : Act) :
    (List.replicate n [x]).flatten = List.replicate n x := by
  induction n with
  | zero => rfl
  | succ k ih => simp [List.replicate_succ, ih]

lemma jogIter_none (d : Int) : JogDialPage.jogIter d none = [] := by
  simp [JogDialPage.jogIter]

lemma jog_event_none (s : Sys) (d : Int) (h : s.selected_axis = none) :
    (JogDialPage.handle_jog_event s d).2 = [] := by
  simp [JogDialPage.handle_jog_event, h, jogIter_none, flatten_replicate_nil]

lemma jogIter_some_neg (d : Int) (a : Nat) (ha : a < 3) (hd : d < 0) :
    JogDialPage.jogIter d (some a) = [jogKey a true] := by
  have h1 : ¬ d > 0 := by omega
  interval_cases a <;> simp [JogDialPage.jogIter, jogKey, hd, h1]

lemma jogIter_some_pos (d : Int) (a : Nat) (ha : a < 3) (hd : 0 < d) :
    JogDialPage.jogIter d (some a) = [jogKey a false] := by
  have h1 : ¬ d < 0 := by omega
  interval_cases a <;> simp [JogDialPage.jogIter, jogKey, hd, h1]

lemma select_axis_sel (s : Sys) (a : Nat) :
    (JogDialPage.select_axis s a).selected_axis =
      (if s.selected_axis = some a then none else some a) := rfl

lemma select_axis_led9 (s : Sys) (a : Nat) :
    ((JogDialPage.select_axis s a).led_states 9).off_color =
      (if (JogDialPage.select_axis s a).selected_axis = some 0 then
        ((255, 0, 20) : Color) else (0, 32, 32)) := by
  simp [JogDialPage.select_axis, LedState.set_off_color]

lemma select_axis_led10 (s : Sys) (a : Nat) :
    ((JogDialPage.select_axis s a).led_states 10).off_color =
      (if (JogDialPage.select_axis s a).selected_axis = some 1 then
        ((255, 0, 20) : Color) else (0, 32, 32)) := by
  have h0 : ¬ ((10 : Fin 12) = 9) := by decide
  simp [JogDialPage.select_axis, LedState.set_off_color, h0]

lemma select_axis_led11 (s : Sys) (a : Nat) :
    ((JogDialPage.select_axis s a).led_states 11).off_color =
      (if (JogDialPage.select_axis s a).selected_axis = some 2 then
        ((255, 0, 20) : Color) else (0, 32, 32)) := by
  have h0 : ¬ ((11 : Fin 12) = 9) := by decide
  have h1 : ¬ ((11 : Fin 12) = 10) := by decide
  simp [JogDialPage.select_axis, LedState.set_off_color, h0, h1]

lemma activateNS_current_page (cfg : Config) (p : PageId) (s : Sys) :
    (activateNS cfg p s).current_page = s.current_page := by
  unfold activateNS; split <;> rfl

lemma activateNS_wake_to_page (cfg : Config) (p : PageId) (s : Sys) :
    (activateNS cfg p s).wake_to_page = s.wake_to_page := by
  unfold activateNS; split <;> rfl

lemma activateNS_sleep_page (cfg : Config) (p : PageId) (s : Sys) :
    (activateNS cfg p s).sleep_page = s.sleep_page := by
  unfold activateNS; split <;> rfl

lemma activateNS_selection_page (cfg : Config) (p : PageId) (s : Sys) :
    (activateNS cfg p s).selection_page = s.selection_page := by
  unfold activateNS; split <;> rfl

lemma activateNS_selected_page (cfg : Config) (p : PageId) (s : Sys) :
    (activateNS cfg p s).selected_page = s.selected_page := by
  unfold activateNS; split <;> rfl

lemma activateNS_previous_page (cfg : Config) (p : PageId) (s : Sys) :
    (activateNS cfg p s).previous_page = s.previous_page := by
  unfold activateNS; split <;> rfl

lemma activate_ne_sel_eq (cfg : Config) (p : PageId)
    (h : cfg.kind p ≠ PageKind.selection) (s : Sys) :
    Page.activate cfg p s = some (activateNS cfg p s) := by
  unfold Page.activate activateNS
  cases hk : cfg.kind p with
  | selection => exact absurd hk h
  | display => simp
  | sleep => simp
  | jogDial => simp

lemma wake_some (cfg : Config) (s : Sys) (p : PageId)
    (hw : s.wake_to_page = some p) (hp : cfg.kind p ≠ PageKind.selection) :
    ∃ s2, SleepPage.wake cfg s = some (s2, [Act.deactivate s.current_page, Act.activate p]) ∧
      s2.current_page = p := by
  simp only [SleepPage.wake, hw, activate_ne_sel_eq cfg p hp]
  exact ⟨_, rfl, by simp [activateNS_current_page]⟩

lemma handle_encoder_press_false (cfg : Config) (s : Sys) :
    Page.handle_encoder_press cfg s false = some (s, []) := by
  unfold Page.handle_encoder_press
  cases cfg.kind s.current_page <;>
    simp [DisplayPage.handle_encoder_press, SelectionPage.handle_encoder_press,
      SleepPage.handle_encoder_press]

lemma sel_enc_event_acts (s : Sys) (d : Int) (r : Sys × List Act)
    (h : SelectionPage.handle_encoder_event s d = some r) : r.2 = [] := by
  unfold SelectionPage.handle_encoder_event at h
  dsimp only at h
  repeat' split at h
  all_goals cases h
  all_goals rfl

lemma wake_acts (cfg : Config) (s : Sys) (r : Sys × List Act)
    (h : SleepPage.wake cfg s = some r) :
    ∃ p, r.2 = [Act.deactivate s.current_page, Act.activate p] := by
  unfold SleepPage.wake at h
  dsimp only at h
  repeat' split at h
  all_goals cases h
  all_goals exact ⟨_, rfl⟩

lemma handle_encoder_press_no_epc (cfg : Config) (s : Sys) (pressed : Bool)
    (r : Sys × List Act) (b : Bool)
    (h : Page.handle_encoder_press cfg s pressed = some r) :
    Act.encoderPressCall b ∉ r.2 := by
  unfold Page.handle_encoder_press SelectionPage.handle_encoder_press
    SleepPage.handle_encoder_press SleepPage.wake DisplayPage.handle_encoder_press at h
  dsimp only at h
  repeat' split at h
  all_goals cases h
  all_goals simp

lemma handle_encoder_event_no_epc (cfg : Config) (s : Sys) (d : Int)
    (r : Sys × List Act) (b : Bool)
    (h : Page.handle_encoder_event cfg s d = some r) :
    Act.encoderPressCall b ∉ r.2 := by
  unfold Page.handle_encoder_event SelectionPage.handle_encoder_event
    SleepPage.handle_encoder_event SleepPage.wake at h
  dsimp only at h
  repeat' split at h
  all_goals cases h
  all_goals simp

lemma runCallback_no_epc (s : Sys) (cb : Callback) (b : Bool) :
    Act.encoderPressCall b ∉ (runCallback s cb).2 := by
  cases cb <;> simp [runCallback]

lemma handle_key_event_no_epc (cfg : Config) (s : Sys) (ev : KeyEvent) (b : Bool) :
    Act.encoderPressCall b ∉ (DisplayPage.handle_key_event cfg s ev).2 := by
  unfold DisplayPage.handle_key_event
  cases hpc : (cfg.settings s.current_page ev.key_number).press_callback <;>
    cases hrc : (cfg.settings s.current_page ev.key_number).release_callback <;>
      cases hev : ev.pressed <;>
        simp_all [runCallback_no_epc s, List.mem_append]
  all_goals
    split <;> simp_all [runCallback_no_epc]

lemma jogIter_no_epc (d : Int) (sel : Option Nat) (b : Bool) :
    Act.encoderPressCall b ∉ JogDialPage.jogIter d sel := by
  unfold JogDialPage.jogIter
  split_ifs <;> simp

lemma jog_event_no_epc (cfg : Config) (s : Sys) (d : Int) (b : Bool) :
    Act.encoderPressCall b ∉ (Page.handle_jog_event cfg s d).2 := by
  unfold Page.handle_jog_event
  split
  · simp only [JogDialPage.handle_jog_event]
    intro hmem
    rw [List.mem_flatten] at hmem
    obtain ⟨x, hx, hmem2⟩ := hmem
    rw [List.eq_of_mem_replicate hx] at hmem2
    exact jogIter_no_epc _ _ b hmem2
  · simp

lemma tickKey_no_epc (cfg : Config) (s : Sys) (inp : TickInput) (b : Bool) :
    Act.encoderPressCall b ∉ (tickKey cfg s inp).2 := by
  unfold tickKey
  split
  · simp
  · exact handle_key_event_no_epc cfg s _ b

lemma tickJog_no_epc (cfg : Config) (s : Sys) (lastJog : Int) (inp : TickInput) (b : Bool) :
    Act.encoderPressCall b ∉ (tickJog cfg s lastJog inp).2.2 := by
  unfold tickJog
  split
  · exact jog_event_no_epc cfg s _ b
  · simp

lemma tickEncoder_no_epc (cfg : Config) (s : Sys) (lastEnc : Int) (inp : TickInput)
    (r : Sys × Int × List Act) (b : Bool)
    (h : tickEncoder cfg s lastEnc inp = some r) :
    Act.encoderPressCall b ∉ r.2.2 := by
  unfold tickEncoder at h
  split at h
  · split at h
    · exact absurd h (by simp)
    · cases h
      exact handle_encoder_event_no_epc cfg s _ _ b (by assumption)
  · cases h; simp

lemma tickSleep_no_epc (cfg : Config) (s : Sys) (now : Int)
    (r : Sys × List Act) (b : Bool)
    (h : tickSleep cfg s now = some r) :
    Act.encoderPressCall b ∉ r.2 := by
  unfold tickSleep sleepTransition at h
  dsimp only at h
  repeat' split at h
  all_goals cases h
  all_goals simp

lemma sleepTransition_some (cfg : Config) (t : Sys) (sp : PageId)
    (hts : t.sleep_page = some sp) (hsp : cfg.kind sp ≠ PageKind.selection) :
    ∃ t1, sleepTransition cfg t = some (t1, [Act.deactivate t.current_page, Act.activate sp]) ∧
      t1.current_page = sp ∧ t1.wake_to_page = some t.current_page ∧
      t1.sleep_page = t.sleep_page ∧ t1.selection_page = t.selection_page ∧
      t1.selected_page = t.selected_page := by
  simp only [sleepTransition, hts, activate_ne_sel_eq cfg sp hsp]
  refine ⟨_, rfl, ?_, ?_, ?_, ?_, ?_⟩ <;>
    simp [activateNS_current_page, activateNS_wake_to_page, activateNS_sleep_page,
      activateNS_selection_page, activateNS_selected_page, hts]

lemma tick_tail_no_epc (cfg : Config) (ls : LoopState) (inp : TickInput)
    (s0 : Sys) (held : Bool) (a0 : List Act) (ls2 : LoopState) (tr : List Act) (b : Bool)
    (hpr : tickEncPress cfg ls inp = some (s0, held, a0))
    (htick : tick cfg ls inp = some (ls2, tr))
    (hmem : Act.encoderPressCall b ∈ tr) : Act.encoderPressCall b ∈ a0 := by
  unfold tick at htick
  rw [hpr] at htick
  dsimp only at htick
  split at htick
  · exact absurd htick (by simp)
  rename_i r3 heq
  split at htick
  · exact absurd htick (by simp)
  rename_i r4 heq2
  cases htick
  simp only [List.mem_append] at hmem
  rcases hmem with ((((hm | hm) | hm) | hm) | hm)
  · exact hm
  · exact absurd hm (tickKey_no_epc cfg s0 inp b)
  · exact absurd hm (tickJog_no_epc cfg _ _ inp b)
  · exact absurd hm (tickEncoder_no_epc cfg _ _ inp _ b heq)
  · exact absurd hm (tickSleep_no_epc cfg _ _ _ b heq2)

end Lemmas

/-- C1, counterexample: with no activity and the elapsed time since
last_interaction exactly equal to sleep_time seconds (so at least
sleep_time), the tick does not transition to sleep: the source compares
with a strict greater-than, so current_page stays at page 2 and
wake_to_page stays unset. -/
theorem c1_at_least_counterexample :
    c1inp.current_time - c1loop.sys.last_interaction =
      c1loop.sys.sleep_time * 1000000000 ∧
    c1loop.sys.sleep_page = some 0 ∧ c1loop.sys.current_page = 2 ∧
    (tick testConfig c1loop c1inp).map (fun x => x.1.sys.current_page) = some 2 ∧
    (tick testConfig c1loop c1inp).map (fun x => x.1.sys.wake_to_page) = some none := by
  decide

/-- C1, amended: for every dispatcher tick in which the current page is
not the sleep page, no key, jog or encoder activity occurs, and the
elapsed time since last_interaction strictly exceeds sleep_time
seconds, the tick deactivates the current page, records it as
wake_to_page, makes the sleep page current and activates it.  At
exactly sleep_time seconds of idleness no transition occurs. -/
theorem c1_idle_sleep_transition (cfg : Config) (ls : LoopState) (inp : TickInput)
    (sp : PageId)
    (hsleep : ls.sys.sleep_page = some sp)
    (hkind : cfg.kind sp = PageKind.sleep)
    (hcur : ls.sys.current_page ≠ sp)
    (hnopress : inp.encoder_pressed = true → ls.encoder_held = true)
    (hnokey : inp.key_event = none)
    (hnojog : inp.jog_pos = ls.last_jog_pos)
    (hnoenc : inp.encoder_pos = ls.last_encoder_pos)
    (htime : inp.current_time - ls.sys.last_interaction >
      ls.sys.sleep_time * 1000000000) :
    ∃ ls2 tr, tick cfg ls inp = some (ls2, tr) ∧
      ls2.sys.current_page = sp ∧
      ls2.sys.wake_to_page = some ls.sys.current_page ∧
      Act.deactivate ls.sys.current_page ∈ tr ∧
      Act.activate sp ∈ tr := by
  obtain ⟨t1, hst, ht1c, ht1w, _, _, _⟩ :=
    sleepTransition_some cfg ls.sys sp hsleep (by simp [hkind])
  have hcond : some ls.sys.current_page ≠ ls.sys.sleep_page ∧
      inp.current_time - ls.sys.last_interaction >
        ls.sys.sleep_time * 1000000000 := by
    refine ⟨?_, htime⟩
    rw [hsleep]
    intro hh
    exact hcur (by injection hh)
  have hsl : tickSleep cfg ls.sys inp.current_time =
      some (t1, [Act.deactivate ls.sys.current_page, Act.activate sp]) := by
    unfold tickSleep
    rw [if_pos hcond]
    exact hst
  obtain ⟨held, a0, hpr⟩ : ∃ held a0, tickEncPress cfg ls inp = some (ls.sys, held, a0) := by
    cases hb : inp.encoder_pressed
    · exact ⟨false, [Act.encoderPressCall false],
        by unfold tickEncPress; rw [hb]; simp [handle_encoder_press_false]⟩
    · exact ⟨true, [],
        by unfold tickEncPress; rw [hb, hnopress hb]; simp⟩
  have hkey : tickKey cfg ls.sys inp = (ls.sys, []) := by
    unfold tickKey; rw [hnokey]
  have hjog : tickJog cfg ls.sys ls.last_jog_pos inp = (ls.sys, ls.last_jog_pos, []) := by
    unfold tickJog; rw [if_neg (by simp [hnojog])]
  have henc : tickEncoder cfg ls.sys ls.last_encoder_pos inp =
      some (ls.sys, ls.last_encoder_pos, []) := by
    unfold tickEncoder; rw [if_neg (by simp [hnoenc])]
  refine ⟨{ sys := t1, last_jog_pos := ls.last_jog_pos,
            last_encoder_pos := ls.last_encoder_pos, encoder_held := held },
    a0 ++ [] ++ [] ++ [] ++ [Act.deactivate ls.sys.current_page, Act.activate sp],
    ?_, ht1c, ht1w, by simp, by simp⟩
  unfold tick
  rw [hpr]
  dsimp only
  rw [hkey]
  dsimp only
  rw [hjog]
  dsimp only
  rw [henc]
  dsimp only
  rw [hsl]

/-- C1 witness: one nanosecond past the threshold, the quiet tick from
page 2 transitions to the sleep page 0 and records page 2 in
wake_to_page. -/
theorem c1_idle_sleep_transition_witness :
    ∃ ls2 tr, tick testConfig c1loop c1inp2 = some (ls2, tr) ∧
      ls2.sys.current_page = 0 ∧
      ls2.sys.wake_to_page = some c1loop.sys.current_page ∧
      Act.deactivate c1loop.sys.current_page ∈ tr ∧
      Act.activate 0 ∈ tr :=
  c1_idle_sleep_transition testConfig c1loop c1inp2 0 rfl (by decide) (by decide)
    (by decide) rfl rfl rfl (by decide)

/-- C5, counterexample: in a tick in which the debounced pressed state
(false) equals the previous held flag (false), the loop still calls
handle_encoder_press with False, so release calls are not
edge-triggered. -/
theorem c5_release_not_edge_counterexample :
    c5inp.encoder_pressed = c5loop.encoder_held ∧
    (tick testConfig c5loop c5inp).map (fun x => x.2) =
      some [Act.encoderPressCall false] := by
  decide

/-- C5, amended: handle_encoder_press with True fires only on the
rising edge of the debounced pressed state against the previous held
flag; in a tick where the pressed state equals the held flag no call
with True is made (though a call with False is made on every unpressed
tick). -/
theorem c5_press_edge_only (cfg : Config) (ls : LoopState) (inp : TickInput)
    (h : inp.encoder_pressed = ls.encoder_held)
    (ls2 : LoopState) (tr : List Act)
    (htick : tick cfg ls inp = some (ls2, tr)) :
    Act.encoderPressCall true ∉ tr := by
  intro hmem
  cases hb : inp.encoder_pressed with
  | true =>
    have hheld : ls.encoder_held = true := by rw [← h, hb]
    have hpr : tickEncPress cfg ls inp = some (ls.sys, true, []) := by
      unfold tickEncPress
      rw [hb, hheld]
      simp
    have hfin := tick_tail_no_epc cfg ls inp ls.sys true [] ls2 tr true hpr htick hmem
    simp at hfin
  | false =>
    have hheld : ls.encoder_held = false := by rw [← h, hb]
    have hpr : tickEncPress cfg ls inp =
        some (ls.sys, false, [Act.encoderPressCall false]) := by
      unfold tickEncPress
      rw [hb]
      simp [handle_encoder_press_false]
    have hfin := tick_tail_no_epc cfg ls inp ls.sys false
      [Act.encoderPressCall false] ls2 tr true hpr htick hmem
    simp at hfin

/-- C5 witness: the quiet unpressed tick neither makes a True call nor
omits its False call; applying the edge theorem to its concrete result
shows no True call is in the trace. -/
theorem c5_press_edge_only_witness :
    (tick testConfig c5loop c5inp).map (fun x => x.2) =
      some [Act.encoderPressCall false] ∧
    Act.encoderPressCall true ∉ [Act.encoderPressCall false] := by
  have hm : (tick testConfig c5loop c5inp).map (fun x => x.2) =
      some [Act.encoderPressCall false] := by decide
  refine ⟨hm, ?_⟩
  obtain ⟨r, hr⟩ : ∃ r, tick testConfig c5loop c5inp = some r := by
    cases htk : tick testConfig c5loop c5inp
    · rw [htk] at hm; cases hm
    · exact ⟨_, rfl⟩
  have h2 := c5_press_edge_only testConfig c5loop c5inp (by decide) r.1 r.2 (by rw [hr])
  rw [hr] at hm
  simp only [Option.map_some'] at hm
  rw [← Option.some_injective _ hm]
  exact h2

/-- C2: while the sleep page is current, an encoder press with
pressed true, or an encoder rotation of any delta, deactivates the
sleep page, restores wake_to_page as current_page and activates it;
composing the sleep transition with a wake returns to the page that was
current before the sleep transition. -/
theorem c2_sleep_wake_round_trip (cfg : Config) (s : Sys) (p : PageId)
    (hcur : cfg.kind s.current_page = PageKind.sleep)
    (hw : s.wake_to_page = some p)
    (hp : cfg.kind p ≠ PageKind.selection)
    (t : Sys) (sp : PageId)
    (hts : t.sleep_page = some sp)
    (htk : cfg.kind sp = PageKind.sleep)
    (htc : cfg.kind t.current_page ≠ PageKind.selection) :
    (∃ s1, Page.handle_encoder_press cfg s true =
        some (s1, [Act.deactivate s.current_page, Act.activate p]) ∧
      s1.current_page = p) ∧
    (∀ d : Int, ∃ s1, Page.handle_encoder_event cfg s d =
        some (s1, [Act.deactivate s.current_page, Act.activate p]) ∧
      s1.current_page = p) ∧
    (∃ t1 a1 t2 a2, sleepTransition cfg t = some (t1, a1) ∧
      Page.handle_encoder_press cfg t1 true = some (t2, a2) ∧
      t2.current_page = t.current_page ∧ t1.current_page = sp ∧
      t1.wake_to_page = some t.current_page) := by
  obtain ⟨s1, hwake, hs1⟩ := wake_some cfg s p hw hp
  refine ⟨?_, ?_, ?_⟩
  · refine ⟨s1, ?_, hs1⟩
    simp only [Page.handle_encoder_press, hcur, SleepPage.handle_encoder_press, if_true]
    exact hwake
  · intro d
    refine ⟨s1, ?_, hs1⟩
    simp only [Page.handle_encoder_event, hcur, SleepPage.handle_encoder_event]
    exact hwake
  · have hsp : cfg.kind sp ≠ PageKind.selection := by simp [htk]
    obtain ⟨t1, hst, ht1c, ht1w, _, _, _⟩ := sleepTransition_some cfg t sp hts hsp
    obtain ⟨t2, hwake2, ht2⟩ := wake_some cfg t1 t.current_page ht1w htc
    rw [ht1c] at hwake2
    refine ⟨t1, _, t2, [Act.deactivate sp, Act.activate t.current_page],
      hst, ?_, ht2, ht1c, ht1w⟩
    simp only [Page.handle_encoder_press, ht1c, htk, SleepPage.handle_encoder_press, if_true]
    exact hwake2

/-- C2 witness: from the sleep page with wake_to_page set to page 2, a
press or a rotation wakes back to page 2, and sleeping from page 2
followed by a wake returns to page 2. -/
theorem c2_sleep_wake_round_trip_witness :
    (∃ s1, Page.handle_encoder_press testConfig c2sys true =
        some (s1, [Act.deactivate c2sys.current_page, Act.activate 2]) ∧
      s1.current_page = 2) ∧
    (∀ d : Int, ∃ s1, Page.handle_encoder_event testConfig c2sys d =
        some (s1, [Act.deactivate c2sys.current_page, Act.activate 2]) ∧
      s1.current_page = 2) ∧
    (∃ t1 a1 t2 a2, sleepTransition testConfig c2tsys = some (t1, a1) ∧
      Page.handle_encoder_press testConfig t1 true = some (t2, a2) ∧
      t2.current_page = c2tsys.current_page ∧ t1.current_page = 0 ∧
      t1.wake_to_page = some c2tsys.current_page) :=
  c2_sleep_wake_round_trip testConfig c2sys 2 (by decide) rfl (by decide)
    c2tsys 0 rfl (by decide) (by decide)

/-- C3: one selection-page rotation by any nonzero delta moves the
tentative pick exactly one index through page_stack, forward modulo the
length for positive deltas and backward modulo the length for negative
deltas, independent of the magnitude of the delta. -/
theorem c3_selection_rotation (s : Sys) (sp : PageId) (d : Int)
    (hsel : s.selected_page = some sp) (hmem : sp ∈ s.page_stack) :
    (0 < d → SelectionPage.handle_encoder_event s d =
      some ({ s with selected_page :=
        s.page_stack.get? ((s.page_stack.indexOf sp + 1) % s.page_stack.length) }, [])) ∧
    (d < 0 → SelectionPage.handle_encoder_event s d =
      some ({ s with selected_page :=
        s.page_stack.get? ((s.page_stack.indexOf sp + s.page_stack.length - 1) %
          s.page_stack.length) }, [])) := by
  have hi : s.page_stack.indexOf sp < s.page_stack.length :=
    List.indexOf_lt_length.2 hmem
  constructor
  · intro hd
    have hnd : ¬ d < 0 := by omega
    simp only [SelectionPage.handle_encoder_event, hsel, if_pos hmem, if_neg hnd,
      if_pos hd]
    by_cases hge : ((s.page_stack.indexOf sp : Int)) + 1 ≥ (s.page_stack.length : Int)
    · rw [if_pos hge]
      have heq : s.page_stack.indexOf sp + 1 = s.page_stack.length := by omega
      have hmod : (s.page_stack.indexOf sp + 1) % s.page_stack.length = 0 := by
        rw [heq, Nat.mod_self]
      rw [hmod]
      have h0 : 0 < s.page_stack.length := by omega
      obtain ⟨q, hq⟩ : ∃ q, s.page_stack.get? 0 = some q :=
        ⟨_, List.get?_eq_get h0⟩
      rw [hq, show ((0 : Int)).toNat = 0 from rfl, hq]
    · rw [if_neg hge]
      have hmod : (s.page_stack.indexOf sp + 1) % s.page_stack.length =
          s.page_stack.indexOf sp + 1 := by
        apply Nat.mod_eq_of_lt; omega
      rw [hmod]
      have hlt : s.page_stack.indexOf sp + 1 < s.page_stack.length := by omega
      obtain ⟨q, hq⟩ : ∃ q, s.page_stack.get? (s.page_stack.indexOf sp + 1) = some q :=
        ⟨_, List.get?_eq_get hlt⟩
      rw [show ((s.page_stack.indexOf sp : Int) + 1).toNat =
        s.page_stack.indexOf sp + 1 from by omega, hq]
  · intro hd
    have hnd : ¬ d > 0 := by omega
    simp only [SelectionPage.handle_encoder_event, hsel, if_pos hmem, if_pos hd,
      if_neg hnd]
    by_cases hz : ((s.page_stack.indexOf sp : Int)) - 1 < 0
    · rw [if_pos hz]
      have hiz : s.page_stack.indexOf sp = 0 := by omega
      have hmod : (s.page_stack.indexOf sp + s.page_stack.length - 1) %
          s.page_stack.length = s.page_stack.length - 1 := by
        rw [hiz, Nat.zero_add]; apply Nat.mod_eq_of_lt; omega
      rw [hmod]
      have hlt : s.page_stack.length - 1 < s.page_stack.length := by omega
      obtain ⟨q, hq⟩ : ∃ q, s.page_stack.get? (s.page_stack.length - 1) = some q :=
        ⟨_, List.get?_eq_get hlt⟩
      rw [show ((s.page_stack.length : Int) - 1).toNat =
        s.page_stack.length - 1 from by omega, hq]
    · rw [if_neg hz]
      have hmod : (s.page_stack.indexOf sp + s.page_stack.length - 1) %
          s.page_stack.length = s.page_stack.indexOf sp - 1 := by
        rw [show s.page_stack.indexOf sp + s.page_stack.length - 1 =
          (s.page_stack.indexOf sp - 1) + s.page_stack.length from by omega,
          Nat.add_mod_right]
        apply Nat.mod_eq_of_lt; omega
      rw [hmod]
      have hlt : s.page_stack.indexOf sp - 1 < s.page_stack.length := by omega
      obtain ⟨q, hq⟩ : ∃ q, s.page_stack.get? (s.page_stack.indexOf sp - 1) = some q :=
        ⟨_, List.get?_eq_get hlt⟩
      rw [show ((s.page_stack.indexOf sp : Int) - 1).toNat =
        s.page_stack.indexOf sp - 1 from by omega, hq]

/-- C3 witness: with five registered pages and the pick at the last
index, one positive step wraps to index 0 (page 2), as in the spec
example. -/
theorem c3_selection_rotation_witness :
    SelectionPage.handle_encoder_event c3sys 3 =
      some ({ c3sys with selected_page :=
        c3sys.page_stack.get? ((c3sys.page_stack.indexOf 6 + 1) % c3sys.page_stack.length) }, []) ∧
    c3sys.page_stack.get? ((c3sys.page_stack.indexOf 6 + 1) % c3sys.page_stack.length) =
      some 2 :=
  ⟨(c3_selection_rotation c3sys 6 3 rfl (by decide)).1 (by omega), by decide⟩

/-- C4: an encoder press with pressed true on the selection page
deactivates it, commits the tentative pick as current_page and
activates the pick. -/
theorem c4_selection_commit (cfg : Config) (s : Sys) (p q : PageId)
    (hkind : cfg.kind s.current_page = PageKind.selection)
    (hselpage : s.selection_page = some q)
    (hpick : s.selected_page = some p)
    (hp : cfg.kind p ≠ PageKind.selection) :
    ∃ s2, Page.handle_encoder_press cfg s true =
        some (s2, [Act.deactivate s.current_page, Act.activate p]) ∧
      s2.current_page = p := by
  simp only [Page.handle_encoder_press, hkind, SelectionPage.handle_encoder_press,
    hselpage, hpick, Option.isSome_some, and_true, true_and, if_true,
    activate_ne_sel_eq cfg p hp]
  exact ⟨_, rfl, by simp [activateNS_current_page]⟩

/-- C4 witness: committing the pick on the selection page with the
jog-dial page (page 4) tentatively picked makes page 4 current. -/
theorem c4_selection_commit_witness :
    ∃ s2, Page.handle_encoder_press testConfig c4sys true =
        some (s2, [Act.deactivate c4sys.current_page, Act.activate 4]) ∧
      s2.current_page = 4 :=
  c4_selection_commit testConfig c4sys 4 1 (by decide) rfl rfl (by decide)

/-- C6, counterexample: a release event for a NONE slot still mutates
the LedState of that slot (set_mode OFF sets the change event) and still
invokes the bound release callback, so NONE does not suppress the
release path. -/
theorem c6_none_release_counterexample :
    (testConfig.settings c6sys.current_page c6ev.key_number).mode = KeyMode.NONE ∧
    ((DisplayPage.handle_key_event testConfig c6sys c6ev).1.led_states 2).event = true ∧
    (c6sys.led_states 2).event = false ∧
    Act.callbackInvoked 2 CbKind.release ∈
      (DisplayPage.handle_key_event testConfig c6sys c6ev).2 := by
  decide

/-- C6, amended: for a NONE slot, a press event changes nothing and
invokes nothing; a release event behaves as on any other slot: it
invokes the bound release callback (if any) and resets the LED of the slot
to mode OFF, setting its change event. -/
theorem c6_none_slot (cfg : Config) (s : Sys) (ev : KeyEvent)
    (h : (cfg.settings s.current_page ev.key_number).mode = KeyMode.NONE) :
    (ev.pressed = true → DisplayPage.handle_key_event cfg s ev = (s, [])) ∧
    (ev.pressed = false →
      ((DisplayPage.handle_key_event cfg s ev).1.led_states ev.key_number).mode =
        LedMode.OFF ∧
      ((DisplayPage.handle_key_event cfg s ev).1.led_states ev.key_number).event = true ∧
      ((cfg.settings s.current_page ev.key_number).release_callback = none →
        DisplayPage.handle_key_event cfg s ev =
          (s.setLed ev.key_number ((s.led_states ev.key_number).set_mode LedMode.OFF), [])) ∧
      (∀ cb, (cfg.settings s.current_page ev.key_number).release_callback = some cb →
        (DisplayPage.handle_key_event cfg s ev).2 =
          [Act.callbackInvoked ev.key_number CbKind.release] ++ (runCallback s cb).2)) := by
  constructor
  · intro hp
    simp [DisplayPage.handle_key_event, hp, h]
  · intro hp
    refine ⟨?_, ?_, ?_, ?_⟩
    · simp [DisplayPage.handle_key_event, hp, Sys.setLed, LedState.set_mode,
        Function.update_same]
    · simp [DisplayPage.handle_key_event, hp, Sys.setLed, LedState.set_mode,
        Function.update_same]
    · intro hrc
      simp [DisplayPage.handle_key_event, hp, hrc]
    · intro cb hcb
      simp [DisplayPage.handle_key_event, hp, hcb]

/-- C6 witness: the release event on the NONE slot resets its LED to
OFF, signals the change event and invokes the bound release callback. -/
theorem c6_none_slot_witness :
    (c6ev.pressed = true → DisplayPage.handle_key_event testConfig c6sys c6ev =
      (c6sys, [])) ∧
    (c6ev.pressed = false →
      ((DisplayPage.handle_key_event testConfig c6sys c6ev).1.led_states
        c6ev.key_number).mode = LedMode.OFF ∧
      ((DisplayPage.handle_key_event testConfig c6sys c6ev).1.led_states
        c6ev.key_number).event = true ∧
      ((testConfig.settings c6sys.current_page c6ev.key_number).release_callback = none →
        DisplayPage.handle_key_event testConfig c6sys c6ev =
          (c6sys.setLed c6ev.key_number
            ((c6sys.led_states c6ev.key_number).set_mode LedMode.OFF), [])) ∧
      (∀ cb, (testConfig.settings c6sys.current_page c6ev.key_number).release_callback =
          some cb →
        (DisplayPage.handle_key_event testConfig c6sys c6ev).2 =
          [Act.callbackInvoked c6ev.key_number CbKind.release] ++ (runCallback c6sys cb).2)) :=
  c6_none_slot testConfig c6sys c6ev (by decide)

/-- C7, counterexample: LedState.reset mutates the mode (here from ON to
OFF) without setting the change-notification event, so not every
mutating LedState operation signals the animator. -/
theorem c7_reset_counterexample :
    c7led.reset.mode ≠ c7led.mode ∧ c7led.reset.event = false ∧ c7led.event = false := by
  decide

/-- C7, amended: set_on_color, set_off_color and set_mode each perform
their mutation and set the change-notification event as part of the
same operation; reset, however, sets the mode to OFF without setting
the event. -/
theorem c7_setters_signal (s : LedState) (c : Color) (m : LedMode) :
    (s.set_on_color c).on_color = c ∧ (s.set_on_color c).event = true ∧
    (s.set_off_color c).off_color = c ∧ (s.set_off_color c).event = true ∧
    (s.set_mode m).mode = m ∧ (s.set_mode m).event = true ∧
    s.reset.mode = LedMode.OFF ∧ s.reset.event = s.event :=
  ⟨rfl, rfl, rfl, rfl, rfl, rfl, rfl, rfl⟩

/-- C8: a jog event with delta d on the jog-dial page emits exactly
natAbs d keystrokes when an axis is selected, all equal to the one
keystroke determined by the sign of d and the axis; the six
axis-direction keystrokes are pairwise distinct; with no axis selected
nothing is emitted. -/
theorem c8_jog_emission (s : Sys) (d : Int) :
    (∀ a : Nat, s.selected_axis = some a → a < 3 →
      (JogDialPage.handle_jog_event s d).2.length = d.natAbs ∧
      (d < 0 → (JogDialPage.handle_jog_event s d).2 =
        List.replicate d.natAbs (jogKey a true)) ∧
      (0 < d → (JogDialPage.handle_jog_event s d).2 =
        List.replicate d.natAbs (jogKey a false))) ∧
    (s.selected_axis = none → (JogDialPage.handle_jog_event s d).2 = []) ∧
    (∀ (a b : Fin 3) (u v : Bool), jogKey a.val u = jogKey b.val v → a = b ∧ u = v) := by
  refine ⟨?_, fun h => jog_event_none s d h, by decide⟩
  intro a ha hlt
  rcases lt_trichotomy d 0 with h | h | h
  · have he : (JogDialPage.handle_jog_event s d).2 =
        List.replicate d.natAbs (jogKey a true) := by
      simp [JogDialPage.handle_jog_event, ha, jogIter_some_neg d a hlt h,
        flatten_replicate_one]
    exact ⟨by simp [he], fun _ => he, fun hc => absurd hc (by omega)⟩
  · subst h
    refine ⟨by simp [JogDialPage.handle_jog_event], ?_, ?_⟩ <;>
      exact fun hc => absurd hc (by omega)
  · have he : (JogDialPage.handle_jog_event s d).2 =
        List.replicate d.natAbs (jogKey a false) := by
      simp [JogDialPage.handle_jog_event, ha, jogIter_some_pos d a hlt h,
        flatten_replicate_one]
    exact ⟨by simp [he], fun hc => absurd hc (by omega), fun _ => he⟩

/-- C8 witness: with axis Y selected, a jog event of delta -3 emits
three SHIFT+DOWN keystrokes. -/
theorem c8_jog_emission_witness :
    (JogDialPage.handle_jog_event c8sys (-3)).2 = List.replicate 3 (jogKey 1 true) ∧
    c8sys.selected_axis = some 1 := by
  have h := (c8_jog_emission c8sys (-3)).1 1 rfl (by omega)
  exact ⟨by simpa using h.2.1 (by omega), rfl⟩

/-- C9: after any nonempty sequence of select_axis calls with axis
arguments 0, 1, 2 (the only arguments bound in main), the selection is
none or a single axis below 3; the off colors of slots 9, 10, 11 are
highlighted exactly for the selected axis; a further call with the
selected axis clears the selection and with any other axis replaces
it. -/
theorem c9_axis_exclusive (s : Sys) (l : List Nat) (hne : l ≠ [])
    (hax : ∀ a ∈ l, a < 3) :
    ((selectAxisSeq s l).selected_axis = none ∨
      ∃ a, a < 3 ∧ (selectAxisSeq s l).selected_axis = some a) ∧
    (((selectAxisSeq s l).led_states 9).off_color =
      (if (selectAxisSeq s l).selected_axis = some 0 then
        ((255, 0, 20) : Color) else (0, 32, 32))) ∧
    (((selectAxisSeq s l).led_states 10).off_color =
      (if (selectAxisSeq s l).selected_axis = some 1 then
        ((255, 0, 20) : Color) else (0, 32, 32))) ∧
    (((selectAxisSeq s l).led_states 11).off_color =
      (if (selectAxisSeq s l).selected_axis = some 2 then
        ((255, 0, 20) : Color) else (0, 32, 32))) ∧
    (∀ a : Nat, (JogDialPage.select_axis (selectAxisSeq s l) a).selected_axis =
      (if (selectAxisSeq s l).selected_axis = some a then none else some a)) := by
  rcases List.eq_nil_or_concat l with h | ⟨L, b, rfl⟩
  · exact absurd h hne
  have hb : b < 3 := hax b (by simp)
  have hfold : selectAxisSeq s (L.concat b) =
      JogDialPage.select_axis (selectAxisSeq s L) b := by
    simp [selectAxisSeq, List.concat_eq_append, List.foldl_append]
  rw [hfold]
  refine ⟨?_, select_axis_led9 _ b, select_axis_led10 _ b, select_axis_led11 _ b,
    fun a => select_axis_sel _ a⟩
  rw [select_axis_sel]
  by_cases h : (selectAxisSeq s L).selected_axis = some b
  · simp [h]
  · exact Or.inr ⟨b, hb, by simp [h]⟩

/-- C9 witness: selecting axis X then axis Y from a fresh jog-dial page
leaves axis Y the sole selection with matching slot highlighting. -/
theorem c9_axis_exclusive_witness :
    ((selectAxisSeq c9sys [0, 1]).selected_axis = none ∨
      ∃ a, a < 3 ∧ (selectAxisSeq c9sys [0, 1]).selected_axis = some a) ∧
    (((selectAxisSeq c9sys [0, 1]).led_states 9).off_color =
      (if (selectAxisSeq c9sys [0, 1]).selected_axis = some 0 then
        ((255, 0, 20) : Color) else (0, 32, 32))) ∧
    (((selectAxisSeq c9sys [0, 1]).led_states 10).off_color =
      (if (selectAxisSeq c9sys [0, 1]).selected_axis = some 1 then
        ((255, 0, 20) : Color) else (0, 32, 32))) ∧
    (((selectAxisSeq c9sys [0, 1]).led_states 11).off_color =
      (if (selectAxisSeq c9sys [0, 1]).selected_axis = some 2 then
        ((255, 0, 20) : Color) else (0, 32, 32))) ∧
    (∀ a : Nat, (JogDialPage.select_axis (selectAxisSeq c9sys [0, 1]) a).selected_axis =
      (if (selectAxisSeq c9sys [0, 1]).selected_axis = some a then none else some a)) :=
  c9_axis_exclusive c9sys [0, 1] (by simp) (by decide)

/-- C10: activating the jog-dial page resets selected_axis to none, and
in the activated state any jog event emits no keystrokes. -/
theorem c10_activate_clears_axis (cfg : Config) (p : PageId) (s : Sys)
    (h : cfg.kind p = PageKind.jogDial) :
    ∃ s2, Page.activate cfg p s = some s2 ∧ s2.selected_axis = none ∧
      ∀ d : Int, (JogDialPage.handle_jog_event s2 d).2 = [] := by
  refine ⟨{ DisplayPage.activate cfg p s with selected_axis := none }, ?_, rfl, ?_⟩
  · simp [Page.activate, h]
  · intro d; exact jog_event_none _ d rfl

/-- C10 witness: re-activating the jog-dial page while axis Z is still
selected clears the selection and silences the dial. -/
theorem c10_activate_clears_axis_witness :
    ∃ s2, Page.activate testConfig 4 c10sys = some s2 ∧ s2.selected_axis = none ∧
      ∀ d : Int, (JogDialPage.handle_jog_event s2 d).2 = [] :=
  c10_activate_clears_axis testConfig 4 c10sys (by decide)

end Cnc
